import Mathlib

/-!
Shallow embedding of the Symptom Analysis & Comparison Engine of the
yq-symptom-backend repository (Flask/Python), restricted to the pure
computational core: area classification, distribution aggregation,
causal-tag analysis, recommendation generation, action-plan building and
record comparison, as implemented in `app/routes/analysis.py`,
`app/routes/symptoms.py` and `app/routes/compare.py`.

Conventions of the embedding:
* Python ints are `Int` (or `Nat` where the source value is a count).
* Python floats produced by `a / b` and `round(x, 2)` are modelled as
  exact rationals; `round(x, 2)` is Python's banker's rounding
  (round-half-to-even) applied to `x * 100`, divided by 100.
* Python strings (including the Chinese literals of the source) are
  `String`.
* Database rows are passed in as plain lists: a record's selections are
  the list of selected symptom ids; a symptom row is its id together
  with its list of tag strings.
* Prose `recommendation` sentences (f-strings interpolating floats) are
  not modelled; no property below concerns them.  The structural fields
  `category`, `priority` and `action_items` are modelled exactly.
-/

namespace SymptomEngine

/-- `get_area_by_id` from `app/routes/analysis.py` (lines 10-25); the same
function is duplicated verbatim in `app/routes/compare.py` (lines 9-24). -/
def get_area_by_id (symptom_id : Int) : String :=
  if 1 ≤ symptom_id ∧ symptom_id ≤ 55 then "red"
  else if 56 ≤ symptom_id ∧ symptom_id ≤ 109 then "green"
  else if 110 ≤ symptom_id ∧ symptom_id ≤ 163 then "white"
  else if 164 ≤ symptom_id ∧ symptom_id ≤ 212 then "black"
  else if 213 ≤ symptom_id ∧ symptom_id ≤ 259 then "yellow"
  else if 260 ≤ symptom_id ∧ symptom_id ≤ 300 then "blue"
  else "unknown"

/-- `determine_area` from `app/routes/symptoms.py` (lines 18-33). -/
def determine_area (symptom_id : Int) : String :=
  if 1 ≤ symptom_id ∧ symptom_id ≤ 50 then "red"
  else if 51 ≤ symptom_id ∧ symptom_id ≤ 100 then "green"
  else if 101 ≤ symptom_id ∧ symptom_id ≤ 150 then "white"
  else if 151 ≤ symptom_id ∧ symptom_id ≤ 200 then "black"
  else if 201 ≤ symptom_id ∧ symptom_id ≤ 250 then "yellow"
  else if 251 ≤ symptom_id ∧ symptom_id ≤ 300 then "blue"
  else "unknown"

/-- The six known area codes, in the fixed order the source iterates them
(`['red', 'green', 'white', 'black', 'yellow', 'blue']`). -/
def knownAreas : List String :=
  ["red", "green", "white", "black", "yellow", "blue"]

/-- Python's `round` on an exact rational: round half to even. -/
def pyRoundInt (x : ℚ) : ℤ :=
  if x - ⌊x⌋ < 1/2 then ⌊x⌋
  else if 1/2 < x - ⌊x⌋ then ⌊x⌋ + 1
  else if 2 ∣ ⌊x⌋ then ⌊x⌋ else ⌊x⌋ + 1

/-- Python's `round(x, 2)` on an exact rational. -/
def round2 (x : ℚ) : ℚ := (pyRoundInt (x * 100) : ℚ) / 100

/-- Rounding moves an exact rational by at most one half. -/
lemma pyRoundInt_abs_le (y : ℚ) : |(pyRoundInt y : ℚ) - y| ≤ 1/2 := by
  have h1 : ((⌊y⌋ : ℤ) : ℚ) ≤ y := Int.floor_le y
  have h2 : y < ⌊y⌋ + 1 := Int.lt_floor_add_one y
  unfold pyRoundInt
  split_ifs with ha hb hc <;> rw [abs_le] <;> push_cast <;>
    constructor <;> linarith

/-- `round(x, 2)` moves an exact rational by at most `1/200`. -/
lemma round2_abs_le (x : ℚ) : |round2 x - x| ≤ 1/200 := by
  have h := pyRoundInt_abs_le (x * 100)
  rw [abs_le] at h ⊢
  unfold round2
  constructor <;> [linarith [h.1]; linarith [h.2]]

/-- `get_area_by_id` takes one of exactly seven string values. -/
lemma get_area_by_id_cases (id : Int) :
    get_area_by_id id = "red" ∨ get_area_by_id id = "green" ∨
    get_area_by_id id = "white" ∨ get_area_by_id id = "black" ∨
    get_area_by_id id = "yellow" ∨ get_area_by_id id = "blue" ∨
    get_area_by_id id = "unknown" := by
  unfold get_area_by_id
  split_ifs <;> simp

/-- On `[1,300]` the classifier lands in the six known areas. -/
lemma get_area_by_id_mem_knownAreas {id : Int}
    (h1 : 1 ≤ id) (h2 : id ≤ 300) :
    get_area_by_id id ∈ knownAreas := by
  unfold get_area_by_id knownAreas
  split_ifs <;> simp_all <;> omega

/-- Outside `[1,300]` the classifier returns the sentinel. -/
lemma get_area_by_id_unknown {id : Int} (h : id < 1 ∨ 300 < id) :
    get_area_by_id id = "unknown" := by
  unfold get_area_by_id
  split_ifs <;> first | rfl | omega

/-! ### Distribution Aggregator (`get_analysis_summary`, analysis.py 37-84)

A record's selections are modelled as the list of selected symptom ids.
-/

/-- One entry of the `area_statistics` list built in
`get_analysis_summary` (analysis.py lines 62-69). -/
structure AreaStat where
  area : String
  area_name : String
  description : String
  symptom_count : ℕ
  percentage : ℚ
  risk_level : String
deriving Repr, DecidableEq

/-- The `name` field of the `area_info` table (analysis.py lines 47-54).
The source only ever indexes the table with the six known codes; other
codes get the empty string here. -/
def areaInfoName (a : String) : String :=
  if a = "red" then "红色区域"
  else if a = "green" then "绿色区域"
  else if a = "white" then "白色区域"
  else if a = "black" then "黑色区域"
  else if a = "yellow" then "黄色区域"
  else if a = "blue" then "蓝色区域"
  else ""

/-- The `description` field of the `area_info` table (analysis.py 47-54). -/
def areaInfoDescription (a : String) : String :=
  if a = "red" then "心、小肠"
  else if a = "green" then "肝、胆"
  else if a = "white" then "肺、大肠"
  else if a = "black" then "肾、膀胱"
  else if a = "yellow" then "脾、胃"
  else if a = "blue" then "妇科病"
  else ""

/-- `area_counts[area_code]`: how many selections classify to `area`
(analysis.py lines 38-42 and 59). -/
def areaCount (sels : List Int) (area : String) : ℕ :=
  sels.countP (fun s => get_area_by_id s == area)

/-- The loop body of analysis.py lines 58-69: one `area_statistics` entry. -/
def areaStatEntry (sels : List Int) (area : String) : AreaStat :=
  let count := areaCount sels area
  let total := sels.length
  let percentage : ℚ :=
    if total > 0 then round2 ((count : ℚ) / (total : ℚ) * 100) else 0
  { area := area
    area_name := areaInfoName area
    description := areaInfoDescription area
    symptom_count := count
    percentage := percentage
    risk_level :=
      if percentage > 20 then "高危"
      else if percentage > 10 then "中危" else "低危" }

/-- `area_statistics` after the stable descending sort by `symptom_count`
(analysis.py lines 57-72). -/
def area_statistics (sels : List Int) : List AreaStat :=
  (knownAreas.map (areaStatEntry sels)).mergeSort
    (fun x y => y.symptom_count ≤ x.symptom_count)

/-- Each element contributes to at most one of the six per-area counters,
and to exactly one when its id lies in `[1,300]`. -/
lemma areaCounts_sum (sels : List Int) :
    (areaCount sels "red" + areaCount sels "green" + areaCount sels "white" +
      areaCount sels "black" + areaCount sels "yellow" +
      areaCount sels "blue" ≤ sels.length) ∧
    ((∀ s ∈ sels, 1 ≤ s ∧ s ≤ 300) →
      areaCount sels "red" + areaCount sels "green" + areaCount sels "white" +
        areaCount sels "black" + areaCount sels "yellow" +
        areaCount sels "blue" = sels.length) := by
  induction sels with
  | nil => simp [areaCount]
  | cons x l ih =>
    have hcons : ∀ a : String,
        areaCount (x :: l) a =
          areaCount l a + (if get_area_by_id x = a then 1 else 0) := by
      intro a
      simp [areaCount, List.countP_cons]
    simp only [hcons, List.length_cons]
    constructor
    · rcases get_area_by_id_cases x with h | h | h | h | h | h | h <;>
        simp only [h] <;> simp <;> omega
    · intro hr
      have hx := hr x (by simp)
      have hmem := get_area_by_id_mem_knownAreas hx.1 hx.2
      have hl := ih.2 (fun s hs => hr s (by simp [hs]))
      rcases get_area_by_id_cases x with h | h | h | h | h | h | h <;>
        simp only [h] <;> first
        | (simp; omega)
        | (rw [h] at hmem; simp [knownAreas] at hmem)

/-- The risk-tier `if`-chain of analysis.py line 68, characterised by the
strict thresholds it implements. -/
lemma risk_chain_iff (q : ℚ) :
    ((if q > 20 then "高危" else if q > 10 then "中危" else "低危")
        = "高危" ↔ 20 < q) ∧
    ((if q > 20 then "高危" else if q > 10 then "中危" else "低危")
        = "中危" ↔ 10 < q ∧ q ≤ 20) ∧
    ((if q > 20 then "高危" else if q > 10 then "中危" else "低危")
        = "低危" ↔ q ≤ 10) := by
  split_ifs with h1 h2 <;>
    refine ⟨?_, ?_, ?_⟩ <;> simp_all <;> first | linarith | decide

/-- C4: in every `area_statistics` entry, the percentage is
`round(count / total * 100, 2)` when `total > 0` and `0` otherwise, and
the risk tier is derived from that already-rounded percentage with strict
thresholds: high iff it exceeds 20, medium iff it lies in `(10, 20]`, low
iff it is at most 10; in particular an exact 20.0 is medium, not high. -/
theorem claim_C4_percentage_and_risk (sels : List Int) (area : String) :
    ((areaStatEntry sels area).percentage =
      if 0 < sels.length then
        round2 ((areaCount sels area : ℚ) / (sels.length : ℚ) * 100)
      else 0) ∧
    ((areaStatEntry sels area).risk_level = "高危" ↔
      20 < (areaStatEntry sels area).percentage) ∧
    ((areaStatEntry sels area).risk_level = "中危" ↔
      10 < (areaStatEntry sels area).percentage ∧
        (areaStatEntry sels area).percentage ≤ 20) ∧
    ((areaStatEntry sels area).risk_level = "低危" ↔
      (areaStatEntry sels area).percentage ≤ 10) ∧
    ((areaStatEntry sels area).percentage = 20 →
      (areaStatEntry sels area).risk_level = "中危") := by
  have hpct : (areaStatEntry sels area).percentage =
      if 0 < sels.length then
        round2 ((areaCount sels area : ℚ) / (sels.length : ℚ) * 100)
      else 0 := rfl
  have hrisk : (areaStatEntry sels area).risk_level =
      if (areaStatEntry sels area).percentage > 20 then "高危"
      else if (areaStatEntry sels area).percentage > 10 then "中危"
      else "低危" := rfl
  obtain ⟨hiff1, hiff2, hiff3⟩ := risk_chain_iff (areaStatEntry sels area).percentage
  rw [hrisk]
  refine ⟨hpct, hiff1, hiff2, hiff3, fun h20 => ?_⟩
  rw [hiff2, h20]
  norm_num

/-- Witness for C4 at a concrete record: five selections, one per area of
`[red, green, white, black, yellow]`, give `red` percentage exactly 20 and
risk tier medium. -/
theorem claim_C4_percentage_and_risk_witness :
    (areaStatEntry [1, 56, 110, 164, 213] "red").percentage = 20 ∧
    (areaStatEntry [1, 56, 110, 164, 213] "red").risk_level = "中危" := by
  have hc : areaCount [1, 56, 110, 164, 213] "red" = 1 := by decide
  have hp : (areaStatEntry [1, 56, 110, 164, 213] "red").percentage = 20 := by
    rw [(claim_C4_percentage_and_risk [1, 56, 110, 164, 213] "red").1]
    simp [hc]
    norm_num [round2, pyRoundInt]
  exact ⟨hp,
    (claim_C4_percentage_and_risk [1, 56, 110, 164, 213] "red").2.2.2.2 hp⟩

/-- C5: for every non-empty selection set, the six area percentages of the
Distribution Aggregator sum to at most `100 + 0.1`, and the sum lies within
`0.1` of `100` whenever every selected symptom id lies in `[1,300]` (so
that each selection classifies to one of the six known areas). -/
theorem claim_C5_percentages_sum (sels : List Int) (hne : sels ≠ []) :
    ((area_statistics sels).map AreaStat.percentage).sum ≤ 100 + 1/10 ∧
    ((∀ s ∈ sels, 1 ≤ s ∧ s ≤ 300) →
      |((area_statistics sels).map AreaStat.percentage).sum - 100| ≤
        1/10) := by
  have ht : 0 < sels.length := List.length_pos.mpr hne
  have htq : (0:ℚ) < (sels.length : ℚ) := by exact_mod_cast ht
  have hsum : ((area_statistics sels).map AreaStat.percentage).sum =
      ((knownAreas.map (areaStatEntry sels)).map AreaStat.percentage).sum :=
    ((List.mergeSort_perm (knownAreas.map (areaStatEntry sels)) _).map
      AreaStat.percentage).sum_eq
  have hpct : ∀ a : String, (areaStatEntry sels a).percentage =
      round2 ((areaCount sels a : ℚ) / (sels.length : ℚ) * 100) := by
    intro a
    show (if 0 < sels.length then _ else (0:ℚ)) = _
    rw [if_pos ht]
  rw [hsum]
  simp only [knownAreas, List.map_cons, List.map_nil, List.sum_cons,
    List.sum_nil, add_zero, hpct]
  have herr : ∀ a : String,
      ((areaCount sels a : ℚ) / (sels.length : ℚ) * 100) - 1/200 ≤
        round2 ((areaCount sels a : ℚ) / (sels.length : ℚ) * 100) ∧
      round2 ((areaCount sels a : ℚ) / (sels.length : ℚ) * 100) ≤
        ((areaCount sels a : ℚ) / (sels.length : ℚ) * 100) + 1/200 := by
    intro a
    have h := round2_abs_le ((areaCount sels a : ℚ) / (sels.length : ℚ) * 100)
    rw [abs_le] at h
    exact ⟨by linarith [h.1], by linarith [h.2]⟩
  obtain ⟨h1l, h1r⟩ := herr "red"
  obtain ⟨h2l, h2r⟩ := herr "green"
  obtain ⟨h3l, h3r⟩ := herr "white"
  obtain ⟨h4l, h4r⟩ := herr "black"
  obtain ⟨h5l, h5r⟩ := herr "yellow"
  obtain ⟨h6l, h6r⟩ := herr "blue"
  have hratio :
      (areaCount sels "red" : ℚ) / (sels.length : ℚ) * 100 +
      (areaCount sels "green" : ℚ) / (sels.length : ℚ) * 100 +
      (areaCount sels "white" : ℚ) / (sels.length : ℚ) * 100 +
      (areaCount sels "black" : ℚ) / (sels.length : ℚ) * 100 +
      (areaCount sels "yellow" : ℚ) / (sels.length : ℚ) * 100 +
      (areaCount sels "blue" : ℚ) / (sels.length : ℚ) * 100 =
      ((areaCount sels "red" + areaCount sels "green" +
        areaCount sels "white" + areaCount sels "black" +
        areaCount sels "yellow" + areaCount sels "blue" : ℕ) : ℚ) /
        (sels.length : ℚ) * 100 := by
    push_cast
    ring
  obtain ⟨hle, heqf⟩ := areaCounts_sum sels
  constructor
  · have hcle : ((areaCount sels "red" + areaCount sels "green" +
        areaCount sels "white" + areaCount sels "black" +
        areaCount sels "yellow" + areaCount sels "blue" : ℕ) : ℚ) ≤
        (sels.length : ℚ) := by exact_mod_cast hle
    have hb : ((areaCount sels "red" + areaCount sels "green" +
        areaCount sels "white" + areaCount sels "black" +
        areaCount sels "yellow" + areaCount sels "blue" : ℕ) : ℚ) /
        (sels.length : ℚ) * 100 ≤ 100 := by
      rw [div_mul_eq_mul_div, div_le_iff htq]
      linarith
    linarith [hratio, hb, h1r, h2r, h3r, h4r, h5r, h6r]
  · intro hr
    have hceq : ((areaCount sels "red" + areaCount sels "green" +
        areaCount sels "white" + areaCount sels "black" +
        areaCount sels "yellow" + areaCount sels "blue" : ℕ) : ℚ) =
        (sels.length : ℚ) := by exact_mod_cast heqf hr
    have hb : ((areaCount sels "red" + areaCount sels "green" +
        areaCount sels "white" + areaCount sels "black" +
        areaCount sels "yellow" + areaCount sels "blue" : ℕ) : ℚ) /
        (sels.length : ℚ) * 100 = 100 := by
      rw [hceq, div_self (ne_of_gt htq)]
      norm_num
    rw [abs_le]
    constructor
    · linarith [hratio, hb, h1l, h2l, h3l, h4l, h5l, h6l]
    · linarith [hratio, hb, h1r, h2r, h3r, h4r, h5r, h6r]

/-- Witness for C5 at the concrete selection list `[1, 56, 300]` (all ids in
range): the six percentages sum to `100.0` within tolerance. -/
theorem claim_C5_percentages_sum_witness :
    ([1, 56, 300] : List Int) ≠ [] ∧
    |((area_statistics [1, 56, 300]).map AreaStat.percentage).sum - 100| ≤
      1/10 :=
  ⟨by simp,
   (claim_C5_percentages_sum [1, 56, 300] (by simp)).2
     (by intro s hs; fin_cases hs <;> norm_num)⟩

/-- C2: the two duplicated area classifiers disagree.  On every id in
`[51,55]` the band table of `analysis.py` (ending at 55/109/163/212/259/300)
answers `red` while the band table of `symptoms.py` (ending at
50/100/150/200/250/300) answers `green`; hence there is an id in `[1,300]`
where they differ and the two functions are not extensionally equal over
`[1,300]`. -/
theorem claim_C2_classifiers_disagree :
    (∀ id : Int, 51 ≤ id → id ≤ 55 →
      get_area_by_id id ≠ determine_area id) ∧
    (∃ id : Int, 1 ≤ id ∧ id ≤ 300 ∧
      get_area_by_id id ≠ determine_area id) ∧
    ¬ (∀ id : Int, 1 ≤ id → id ≤ 300 →
      get_area_by_id id = determine_area id) := by
  refine ⟨?_, ⟨51, by norm_num, by norm_num, by decide⟩, ?_⟩
  · intro id h1 h2
    have ha : get_area_by_id id = "red" := by
      unfold get_area_by_id
      rw [if_pos (by omega)]
    have hd : determine_area id = "green" := by
      unfold determine_area
      rw [if_neg (by omega), if_pos (by omega)]
    rw [ha, hd]
    decide
  · intro h
    exact absurd (h 51 (by norm_num) (by norm_num)) (by decide)

/-- Witness for C2 at the concrete id 51: the `analysis.py` classifier says
`red` where the `symptoms.py` classifier says `green`. -/
theorem claim_C2_classifiers_disagree_witness :
    get_area_by_id 51 ≠ determine_area 51 :=
  claim_C2_classifiers_disagree.1 51 (by norm_num) (by norm_num)

/-- C3: `get_area_by_id` is total: every integer in `[1,300]` maps to
exactly one of the six known areas, and every integer outside `[1,300]`
maps to the sentinel `"unknown"`; being a Lean function, it never fails. -/
theorem claim_C3_area_classifier_total :
    (∀ id : Int, 1 ≤ id → id ≤ 300 →
      ∃! a : String, a ∈ knownAreas ∧ get_area_by_id id = a) ∧
    (∀ id : Int, id < 1 ∨ 300 < id → get_area_by_id id = "unknown") := by
  constructor
  · intro id h1 h2
    exact ⟨get_area_by_id id, ⟨get_area_by_id_mem_knownAreas h1 h2, rfl⟩,
      fun b hb => hb.2.symm⟩
  · intro id h
    exact get_area_by_id_unknown h

/-- Witness for C3 at the concrete ids 1 (inside the range) and 0 (outside):
1 classifies to a unique known area and 0 to `"unknown"`. -/
theorem claim_C3_area_classifier_total_witness :
    (∃! a : String, a ∈ knownAreas ∧ get_area_by_id 1 = a) ∧
    get_area_by_id 0 = "unknown" :=
  ⟨claim_C3_area_classifier_total.1 1 (by norm_num) (by norm_num),
   claim_C3_area_classifier_total.2 0 (by norm_num)⟩

/-! ### Record Comparator (`compare_records`, analysis.py 356-478, and
`compare_two_records`, compare.py 26-110)

Both route handlers compute the same set algebra on the two records'
symptom-id sets and the same per-area trend entries. -/

/-- `added_symptoms = symptom_ids2 - symptom_ids1` (analysis.py line 385,
compare.py line 55). -/
def added_symptoms (ids1 ids2 : Finset Int) : Finset Int := ids2 \ ids1

/-- `removed_symptoms = symptom_ids1 - symptom_ids2` (analysis.py line 386,
compare.py line 56). -/
def removed_symptoms (ids1 ids2 : Finset Int) : Finset Int := ids1 \ ids2

/-- `common_symptoms = symptom_ids1 & symptom_ids2` (analysis.py line 387,
compare.py line 57). -/
def common_symptoms (ids1 ids2 : Finset Int) : Finset Int := ids1 ∩ ids2

/-- `get_area_name` from analysis.py lines 500-510. -/
def get_area_name (area_code : String) : String :=
  if area_code = "red" then "红色区域（心、小肠）"
  else if area_code = "green" then "绿色区域（肝、胆）"
  else if area_code = "white" then "白色区域（肺、大肠）"
  else if area_code = "black" then "黑色区域（肾、膀胱）"
  else if area_code = "yellow" then "黄色区域（脾、胃）"
  else if area_code = "blue" then "蓝色区域（妇科）"
  else "未知区域"

/-- One `area_changes[area_code]` entry (analysis.py lines 417-424). -/
structure AreaChange where
  area_name : String
  count1 : ℕ
  count2 : ℕ
  change : ℤ
  percentage_change : ℚ
  trend : String
deriving Repr, DecidableEq

/-- The loop body of analysis.py lines 410-424 (identically compare.py
lines 61-84, up to the `count_a`/`count_b` key names). -/
def areaChange (sels1 sels2 : List Int) (area : String) : AreaChange :=
  let count1 := (sels1.filter (fun s => get_area_by_id s == area)).length
  let count2 := (sels2.filter (fun s => get_area_by_id s == area)).length
  let change : ℤ := (count2 : ℤ) - (count1 : ℤ)
  { area_name := get_area_name area
    count1 := count1
    count2 := count2
    change := change
    percentage_change :=
      if 0 < count1 then round2 ((change : ℚ) / (count1 : ℚ) * 100)
      else if 0 < change then 100 else 0
    trend := if change < 0 then "改善" else if 0 < change then "加重" else "稳定" }

/-- C6: the comparator's set algebra is antisymmetric:
`added(A,B) = removed(B,A)`, `removed(A,B) = added(B,A)` and
`common(A,B) = common(B,A)`. -/
theorem claim_C6_compare_antisymmetric (A B : Finset Int) :
    added_symptoms A B = removed_symptoms B A ∧
    removed_symptoms A B = added_symptoms B A ∧
    common_symptoms A B = common_symptoms B A :=
  ⟨rfl, rfl, Finset.inter_comm A B⟩

/-- The trend `if`-chain of analysis.py line 423, characterised by the sign
of the change. -/
lemma trend_chain_iff (ch : ℤ) :
    ((if ch < 0 then "改善" else if 0 < ch then "加重" else "稳定")
        = "改善" ↔ ch < 0) ∧
    ((if ch < 0 then "改善" else if 0 < ch then "加重" else "稳定")
        = "加重" ↔ 0 < ch) ∧
    ((if ch < 0 then "改善" else if 0 < ch then "加重" else "稳定")
        = "稳定" ↔ ch = 0) := by
  split_ifs with h1 h2 <;> refine ⟨?_, ?_, ?_⟩ <;> simp_all <;> omega

/-- C7: the comparator's per-area trend entry is total (no division by
zero): when `count1 > 0` the percentage change is
`round(change / count1 * 100, 2)`; when `count1 = 0` it is exactly 100 if
`count2 > count1` and exactly 0 otherwise; the trend label is improving
iff the change is negative, worsening iff positive, stable iff zero. -/
theorem claim_C7_trend_total (sels1 sels2 : List Int) (area : String) :
    (0 < (areaChange sels1 sels2 area).count1 →
      (areaChange sels1 sels2 area).percentage_change =
        round2 (((areaChange sels1 sels2 area).change : ℚ) /
          ((areaChange sels1 sels2 area).count1 : ℚ) * 100)) ∧
    ((areaChange sels1 sels2 area).count1 = 0 →
      (areaChange sels1 sels2 area).percentage_change =
        if (areaChange sels1 sels2 area).count1 <
            (areaChange sels1 sels2 area).count2 then 100 else 0) ∧
    ((areaChange sels1 sels2 area).trend = "改善" ↔
      (areaChange sels1 sels2 area).change < 0) ∧
    ((areaChange sels1 sels2 area).trend = "加重" ↔
      0 < (areaChange sels1 sels2 area).change) ∧
    ((areaChange sels1 sels2 area).trend = "稳定" ↔
      (areaChange sels1 sels2 area).change = 0) := by
  obtain ⟨ht1, ht2, ht3⟩ := trend_chain_iff (areaChange sels1 sels2 area).change
  have hch : (areaChange sels1 sels2 area).change =
      ((areaChange sels1 sels2 area).count2 : ℤ) -
        ((areaChange sels1 sels2 area).count1 : ℤ) := rfl
  refine ⟨fun h => ?_, fun h => ?_, ht1, ht2, ht3⟩
  · show (if 0 < (areaChange sels1 sels2 area).count1 then _ else _) = _
    rw [if_pos h]
    rfl
  · show (if 0 < (areaChange sels1 sels2 area).count1 then _ else _) = _
    rw [if_neg (by omega)]
    show (if (0:ℤ) < (areaChange sels1 sels2 area).change
        then (100:ℚ) else 0) = _
    rcases lt_or_ge (areaChange sels1 sels2 area).count1
        (areaChange sels1 sels2 area).count2 with hlt | hge
    · rw [if_pos (by rw [hch]; omega), if_pos hlt]
    · rw [if_neg (by rw [hch]; omega), if_neg (by omega)]

/-- Witness for C7 at concrete records `[]` and `[1]` for area `red`:
the baseline count is 0, so the percentage change is the convention 100
and the trend is worsening. -/
theorem claim_C7_trend_total_witness :
    (areaChange [] [1] "red").percentage_change = 100 ∧
    (areaChange [] [1] "red").trend = "加重" := by
  have h := claim_C7_trend_total [] [1] "red"
  have hc1 : (areaChange [] [1] "red").count1 = 0 := by decide
  have hc2 : (areaChange [] [1] "red").count2 = 1 := by decide
  have hch : (areaChange [] [1] "red").change = 1 := by decide
  refine ⟨?_, ?_⟩
  · rw [h.2.1 hc1, if_pos (by omega)]
  · exact h.2.2.2.1.mpr (by omega)

/-! ### Recommendation Generator (`get_recommendations`, analysis.py
206-354) and Action Plan Builder (`generate_action_plan`, analysis.py
532-560)

A recommendation's structural fields are modelled exactly; its prose
`recommendation` sentence (an f-string interpolating the percentage) is
not, and consequently the age-group string computed on line 315, which
feeds only that sentence, does not appear in the result.  `Counter
.most_common(n)` is modelled as a stable descending sort by count of the
count table, truncated to `n` entries. -/

/-- One entry of the `recommendations` list (category, priority and
action items; analysis.py lines 244-330). -/
structure Recommendation where
  category : String
  priority : String
  action_items : List String
deriving Repr, DecidableEq

/-- `Counter.most_common(n)`: entries sorted by count descending (ties in
first-seen order, hence a stable sort), truncated to `n`. -/
def most_common (counts : List (String × ℕ)) (n : ℕ) :
    List (String × ℕ) :=
  (counts.mergeSort (fun a b => b.2 ≤ a.2)).take n

/-- The percentage computed for one tag or area count
(analysis.py lines 268 and 295). -/
def sharePercentage (total count : ℕ) : ℚ :=
  if 0 < total then round2 ((count : ℚ) / (total : ℚ) * 100) else 0

/-- Rule 1, the volume rule (analysis.py lines 243-263). -/
def volumeRecommendation (total_symptoms : ℕ) : Recommendation :=
  if total_symptoms > 30 then
    ⟨"整体健康", "高", ["预约全面体检", "制定长期健康计划", "考虑专业健康管理服务"]⟩
  else if total_symptoms > 15 then
    ⟨"整体健康", "中", ["重点调理主要问题区域", "改善生活习惯", "定期复查"]⟩
  else
    ⟨"整体健康", "低", ["维持健康生活方式", "定期自我检查", "注意早期预警信号"]⟩

/-- Rule 2, the per-tag rule body (analysis.py lines 267-290): recognized
tags yield one recommendation, others none. -/
def tagRecommendation (total_symptoms : ℕ) (tc : String × ℕ) :
    Option Recommendation :=
  if tc.1 = "毒素" then
    some ⟨"排毒调理",
      if sharePercentage total_symptoms tc.2 > 25 then "高" else "中",
      ["增加膳食纤维摄入", "多喝水促进代谢", "适量运动排汗", "避免接触环境毒素"]⟩
  else if tc.1 = "营养" then
    some ⟨"营养改善",
      if sharePercentage total_symptoms tc.2 > 25 then "高" else "中",
      ["均衡膳食营养", "补充必要维生素矿物质", "定期营养评估"]⟩
  else if tc.1 = "习惯" then
    some ⟨"生活习惯", "中", ["规律作息", "适度运动", "减少熬夜", "管理压力"]⟩
  else none

/-- The `name` entries of the `area_info` table of analysis.py 297-304. -/
def areaSystemName (a : String) : String :=
  if a = "red" then "心、小肠系统"
  else if a = "green" then "肝、胆系统"
  else if a = "white" then "肺、大肠系统"
  else if a = "black" then "肾、膀胱系统"
  else if a = "yellow" then "脾、胃系统"
  else if a = "blue" then "妇科系统"
  else ""

/-- The `focus` entries of the `area_info` table of analysis.py 297-304. -/
def areaSystemFocus (a : String) : String :=
  if a = "red" then "心血管健康、血液循环"
  else if a = "green" then "解毒功能、情绪管理"
  else if a = "white" then "呼吸健康、肠道功能"
  else if a = "black" then "泌尿健康、水分代谢"
  else if a = "yellow" then "消化吸收、免疫调节"
  else if a = "blue" then "内分泌平衡、生殖健康"
  else ""

/-- Rule 3, the per-area rule body (analysis.py lines 294-312): the six
known areas yield one recommendation each, `unknown` none. -/
def areaRecommendation (total_symptoms : ℕ) (ac : String × ℕ) :
    Option Recommendation :=
  if ac.1 ∈ knownAreas then
    some ⟨areaSystemName ac.1,
      if sharePercentage total_symptoms ac.2 > 20 then "高" else "中",
      ["进行" ++ areaSystemName ac.1 ++ "专项检查",
       "针对" ++ areaSystemFocus ac.1 ++ "制定调理方案"]⟩
  else none

/-- Rule 4, the demographic rule (analysis.py lines 314-330); both gender
branches emit one medium-priority recommendation. -/
def demographicRecommendation (gender : String) : Recommendation :=
  if gender = "female" then
    ⟨"性别专属", "中", ["定期妇科检查", "关注月经周期变化", "补充钙质维护骨骼"]⟩
  else
    ⟨"性别专属", "中", ["定期心血管检查", "关注前列腺健康", "控制体重和血脂"]⟩

/-- `priority_order.get(x['priority'], 0)` (analysis.py line 333). -/
def priority_order (p : String) : ℕ :=
  if p = "高" then 3 else if p = "中" then 2 else if p = "低" then 1 else 0

/-- `get_recommendations` (analysis.py lines 240-334): the accumulated
rule output, stably sorted by descending priority rank. -/
def get_recommendations (total_symptoms : ℕ)
    (tag_counts area_counts : List (String × ℕ)) (gender : String) :
    List Recommendation :=
  ([volumeRecommendation total_symptoms] ++
    (most_common tag_counts 3).filterMap (tagRecommendation total_symptoms) ++
    (most_common area_counts 2).filterMap
      (areaRecommendation total_symptoms) ++
    [demographicRecommendation gender]).mergeSort
    (fun a b => priority_order b.priority ≤ priority_order a.priority)

/-- The fixed long-term strategy list (analysis.py lines 554-558). -/
def longTermStrategies : List String :=
  ["建立健康生活习惯并长期坚持", "定期进行健康检查和评估", "根据身体状况调整调理方案"]

/-- The result of `generate_action_plan` (analysis.py lines 537-541). -/
structure ActionPlan where
  immediate_actions : List String
  short_term_goals : List String
  long_term_strategies : List String
deriving Repr, DecidableEq

/-- `generate_action_plan` (analysis.py lines 532-560); the two `extend`
loops are folds over the truncated priority buckets. -/
def generate_action_plan (recommendations : List Recommendation) :
    ActionPlan :=
  let high_priority := recommendations.filter (fun r => r.priority == "高")
  let medium_priority := recommendations.filter (fun r => r.priority == "中")
  { immediate_actions :=
      (high_priority.take 2).foldl
        (fun acc r =>
          if r.action_items.isEmpty then acc
          else acc ++ r.action_items.take 2) []
    short_term_goals :=
      (medium_priority.take 3).foldl
        (fun acc r =>
          if r.action_items.isEmpty then acc
          else acc ++ r.action_items.take 2) []
    long_term_strategies := longTermStrategies }

/-- The guarded `extend` fold equals flat concatenation of the per-entry
first-two action items. -/
lemma foldl_extend_eq (l : List Recommendation) (acc : List String) :
    l.foldl
      (fun acc r =>
        if r.action_items.isEmpty then acc
        else acc ++ r.action_items.take 2) acc =
    acc ++ l.flatMap (fun r => r.action_items.take 2) := by
  induction l generalizing acc with
  | nil => simp
  | cons r t ih =>
    rw [List.foldl_cons, List.flatMap_cons]
    by_cases h : r.action_items.isEmpty
    · rw [if_pos h, ih, List.isEmpty_iff.mp h]
      simp
    · rw [if_neg h, ih, List.append_assoc]

/-- C8: the Action Plan Builder puts into `immediate_actions` exactly the
first 2 action items of each of the first 2 high-priority recommendations
(in list order), into `short_term_goals` exactly the first 2 action items
of each of the first 3 medium-priority recommendations, and
`long_term_strategies` is the same fixed 3-item constant for every input;
low-priority recommendations contribute nothing (only the high and medium
buckets are read). -/
theorem claim_C8_action_plan (recommendations : List Recommendation) :
    (generate_action_plan recommendations).immediate_actions =
      ((recommendations.filter (fun r => r.priority == "高")).take 2).flatMap
        (fun r => r.action_items.take 2) ∧
    (generate_action_plan recommendations).short_term_goals =
      ((recommendations.filter (fun r => r.priority == "中")).take 3).flatMap
        (fun r => r.action_items.take 2) ∧
    (generate_action_plan recommendations).long_term_strategies =
      longTermStrategies ∧
    longTermStrategies.length = 3 ∧
    ∀ other : List Recommendation,
      (generate_action_plan recommendations).long_term_strategies =
        (generate_action_plan other).long_term_strategies := by
  refine ⟨?_, ?_, rfl, rfl, fun _ => rfl⟩
  · show ((recommendations.filter (fun r => r.priority == "高")).take 2).foldl
        _ [] = _
    rw [foldl_extend_eq, List.nil_append]
  · show ((recommendations.filter (fun r => r.priority == "中")).take 3).foldl
        _ [] = _
    rw [foldl_extend_eq, List.nil_append]

/-- C9: for every input, the Recommendation Generator emits between 2 and
7 recommendations (the volume and demographic rules always fire; the tag
rules fire at most 3 times and the area rules at most twice), so the final
sorted list is never empty and indexing its first element cannot fail. -/
theorem claim_C9_recommendation_count (total_symptoms : ℕ)
    (tag_counts area_counts : List (String × ℕ)) (gender : String) :
    2 ≤ (get_recommendations total_symptoms tag_counts area_counts
          gender).length ∧
    (get_recommendations total_symptoms tag_counts area_counts
        gender).length ≤ 7 ∧
    get_recommendations total_symptoms tag_counts area_counts gender ≠
      [] := by
  have htag :
      ((most_common tag_counts 3).filterMap
        (tagRecommendation total_symptoms)).length ≤ 3 :=
    le_trans (List.length_filterMap_le _ _) (List.length_take_le _ _)
  have harea :
      ((most_common area_counts 2).filterMap
        (areaRecommendation total_symptoms)).length ≤ 2 :=
    le_trans (List.length_filterMap_le _ _) (List.length_take_le _ _)
  have hlen : (get_recommendations total_symptoms tag_counts area_counts
      gender).length =
      1 + ((most_common tag_counts 3).filterMap
            (tagRecommendation total_symptoms)).length +
        ((most_common area_counts 2).filterMap
            (areaRecommendation total_symptoms)).length + 1 := by
    unfold get_recommendations
    rw [List.length_mergeSort]
    simp [List.length_append]
    omega
  refine ⟨by omega, by omega, ?_⟩
  rw [← List.length_pos]
  omega

/-- C1 counterexample: with two selections both tagged 习惯 (habit), the
habit tag's percentage is 100 (greater than 25) yet the emitted habit
recommendation has priority 中 (medium), not 高 (high) — the source always
hard-codes medium for the habit tag (analysis.py lines 284-290), so the
claimed `> 25 → high` rule fails for the habit tag. -/
theorem claim_C1_counterexample :
    sharePercentage 2 2 > 25 ∧
    tagRecommendation 2 ("习惯", 2) =
      some ⟨"生活习惯", "中", ["规律作息", "适度运动", "减少熬夜", "管理压力"]⟩ ∧
    (tagRecommendation 2 ("习惯", 2)).map Recommendation.priority ≠
      some "高" ∧
    (⟨"生活习惯", "中", ["规律作息", "适度运动", "减少熬夜", "管理压力"]⟩ :
        Recommendation) ∈ get_recommendations 2 [("习惯", 2)] [] "male" := by
  refine ⟨?_, by decide, by decide, ?_⟩
  · show (if 0 < (2:ℕ) then round2 ((2:ℚ) / (2:ℚ) * 100) else 0) > 25
    norm_num [round2, pyRoundInt]
  · show _ ∈ List.mergeSort _ _
    rw [(List.mergeSort_perm _ _).mem_iff]
    have h1 : most_common [("习惯", 2)] 3 = [("习惯", 2)] := by
      unfold most_common
      rw [List.mergeSort_singleton]
      rfl
    have h2 : most_common ([] : List (String × ℕ)) 2 = [] := by
      unfold most_common
      rw [List.mergeSort_nil]
      rfl
    rw [h1, h2]
    decide

/-- C1 amended: for each of the top 3 tags by count, a toxin (毒素) or
nutrition (营养) tag yields a recommendation whose priority is high iff
the tag's rounded percentage exceeds 25 and medium otherwise, a habit
(习惯) tag always yields a medium-priority recommendation regardless of
its percentage, and unrecognized tags yield no recommendation. -/
theorem claim_C1_amended (total_symptoms : ℕ)
    (tag_counts : List (String × ℕ)) (tc : String × ℕ)
    (htc : tc ∈ most_common tag_counts 3) :
    (tc.1 = "毒素" →
      (tagRecommendation total_symptoms tc).map Recommendation.priority =
        some (if sharePercentage total_symptoms tc.2 > 25
          then "高" else "中")) ∧
    (tc.1 = "营养" →
      (tagRecommendation total_symptoms tc).map Recommendation.priority =
        some (if sharePercentage total_symptoms tc.2 > 25
          then "高" else "中")) ∧
    (tc.1 = "习惯" →
      (tagRecommendation total_symptoms tc).map Recommendation.priority =
        some "中") ∧
    (tc.1 ∉ (["毒素", "营养", "习惯"] : List String) →
      tagRecommendation total_symptoms tc = none) := by
  refine ⟨fun h => ?_, fun h => ?_, fun h => ?_, fun h => ?_⟩
  · simp [tagRecommendation, h]
  · simp [tagRecommendation, h]
  · simp [tagRecommendation, h]
  · simp only [List.mem_cons, List.not_mem_nil, or_false, not_or] at h
    simp [tagRecommendation, h.1, h.2.1, h.2.2]

/-- Witness for C1 amended, at a concrete count table where the toxin tag
holds 3 of 4 selections (75% > 25): its recommendation is high-priority. -/
theorem claim_C1_amended_witness :
    ("毒素", 3) ∈ most_common [("毒素", 3)] 3 ∧
    (tagRecommendation 4 ("毒素", 3)).map Recommendation.priority =
      some (if sharePercentage 4 3 > 25 then "高" else "中") := by
  have hmc : ("毒素", 3) ∈ most_common [("毒素", 3)] 3 := by
    unfold most_common
    rw [List.mergeSort_singleton]
    decide
  exact ⟨hmc, (claim_C1_amended 4 [("毒素", 3)] ("毒素", 3) hmc).1 rfl⟩

/-! ### Causal Tag Analyzer (`get_causes_analysis`, analysis.py 102-204)

A symptom row is its id together with its tag strings; the per-area
`Counter` of analysis.py lines 128-134 is modelled as the association
list over the distinct tags (in first-seen order) with their occurrence
counts. -/

/-- A symptom row as read in the per-selection loop: its id and the tag
strings attached to it. -/
structure SymptomRow where
  id : Int
  tags : List String
deriving Repr, DecidableEq

/-- The stream of tag occurrences contributed to `area_tag_counts[area]`:
every tag of every selected symptom classifying to `area`
(analysis.py lines 128-134). -/
def areaTagOccurrences (rows : List SymptomRow) (area : String) :
    List String :=
  (rows.filter (fun r => get_area_by_id r.id == area)).flatMap
    (fun r => r.tags)

/-- A `Counter` over a stream of strings: each distinct key (first-seen
order) with its number of occurrences. -/
def counterOf (l : List String) : List (String × ℕ) :=
  l.dedup.map (fun t => (t, l.count t))

/-- `total_area_symptoms = sum(area_tags.values())`
(analysis.py line 154). -/
def total_area_symptoms (rows : List SymptomRow) (area : String) : ℕ :=
  ((counterOf (areaTagOccurrences rows area)).map Prod.snd).sum

/-- The `top_tags` list of one `area_analysis` entry (analysis.py lines
156-163): the area's top 3 tags with count and within-area percentage. -/
def area_top_tags (rows : List SymptomRow) (area : String) :
    List (String × ℕ × ℚ) :=
  (most_common (counterOf (areaTagOccurrences rows area)) 3).map
    (fun tc => (tc.1, tc.2,
      if 0 < total_area_symptoms rows area then
        round2 ((tc.2 : ℚ) / (total_area_symptoms rows area : ℚ) * 100)
      else 0))

/-- C10: in each per-area entry of the Causal Tag Analyzer, the
`total_symptoms` field counts tag occurrences — a selected symptom
carrying `k` tags contributes `k`, so the field equals the sum of the tag
multiplicities of the area's symptoms rather than the number of symptoms
classified to the area — and each top-tag percentage is computed with
this tag-occurrence total as denominator. -/
theorem claim_C10_area_tag_totals (rows : List SymptomRow)
    (area : String) :
    total_area_symptoms rows area =
      ((rows.filter (fun r => get_area_by_id r.id == area)).map
        (fun r => r.tags.length)).sum ∧
    area_top_tags rows area =
      (most_common (counterOf (areaTagOccurrences rows area)) 3).map
        (fun tc => (tc.1, tc.2,
          if 0 < ((rows.filter (fun r => get_area_by_id r.id == area)).map
              (fun r => r.tags.length)).sum then
            round2 ((tc.2 : ℚ) /
              (((((rows.filter (fun r => get_area_by_id r.id == area)).map
                (fun r => r.tags.length)).sum : ℕ) : ℚ)) * 100)
          else 0)) := by
  have hocc : total_area_symptoms rows area =
      ((rows.filter (fun r => get_area_by_id r.id == area)).map
        (fun r => r.tags.length)).sum := by
    unfold total_area_symptoms counterOf areaTagOccurrences
    rw [List.map_map]
    simp only [Function.comp_def]
    rw [List.sum_map_count_dedup_eq_length, List.length_flatMap]
    simp only [Function.comp_def]
  refine ⟨hocc, ?_⟩
  unfold area_top_tags
  rw [hocc]

/-- Witness-style corollary of C10 at a concrete record: two symptoms in
the red area, one carrying two tags and one carrying one, give a
`total_symptoms` field of 3 (the tag occurrences), not 2 (the symptoms). -/
theorem claim_C10_area_tag_totals_witness :
    total_area_symptoms [⟨1, ["毒素", "营养"]⟩, ⟨2, ["毒素"]⟩] "red" = 3 ∧
    (([⟨1, ["毒素", "营养"]⟩, ⟨2, ["毒素"]⟩] : List SymptomRow).filter
      (fun r => get_area_by_id r.id == "red")).length = 2 := by
  constructor
  · rw [(claim_C10_area_tag_totals
      [⟨1, ["毒素", "营养"]⟩, ⟨2, ["毒素"]⟩] "red").1]
    decide
  · decide

end SymptomEngine
